import Mathlib

/-!
Shallow embedding of the GradHub polling platform (Flask + SQLAlchemy) and
proofs about its relationship-integrity and state-transition layer.

Conventions of the embedding:
- database ids and time instants are `Nat` (time is in seconds; the code's
  `datetime.now()` / `datetime.utcnow()` calls become an explicit `now`
  parameter threaded into each operation that reads the clock);
- each table is a `List` of row structures carrying the columns the
  modelled operations read or write; rows are appended in insertion order;
- a route handler becomes a pure function from the relevant store and its
  request parameters to an outcome plus the post-transaction store; an
  error response leaves the store unchanged (the handlers roll back or
  never commit on their error paths);
- `query.filter_by(...).first()` becomes `List.find?`, deleting the row
  returned by `.first()` becomes `eraseFirst` (remove the first match).
-/

namespace GradHub

/-- Removes the first element satisfying the predicate, mirroring the
pattern of fetching a row with `.first()` and deleting exactly that row. -/
def eraseFirst {α : Type} (p : α → Bool) : List α → List α
  | [] => []
  | a :: t => if p a then t else a :: eraseFirst p t

/-- Projection of the `Poll` row (src/app/models.py:152-234) onto the columns
the voting endpoints read: the primary key and the nullable `end_date`. -/
structure Poll where
  id : Nat
  end_date : Option Nat
  deriving DecidableEq

/-- The `PollOption` row (src/app/models.py:236-240): primary key and the
foreign key to its poll (the `text` column is irrelevant to voting). -/
structure PollOption where
  id : Nat
  poll_id : Nat
  deriving DecidableEq

/-- The `Vote` row (src/app/models.py:242-246): both `user_id` and
`option_id` are nullable columns; `user_id` stays `None` when no user is
attached to the insert. -/
structure Vote where
  user_id : Option Nat
  option_id : Nat
  deriving DecidableEq

/-- The slice of the store that the voting endpoints touch. -/
structure VoteStore where
  polls : List Poll
  options : List PollOption
  votes : List Vote
  deriving DecidableEq

/-- Mirrors `Poll.query.get_or_404(poll_id)`. -/
def findPoll (s : VoteStore) (pid : Nat) : Option Poll :=
  s.polls.find? (fun p => p.id == pid)

/-- Mirrors `PollOption.query.get_or_404(option_id)`. -/
def findPollOption (s : VoteStore) (oid : Nat) : Option PollOption :=
  s.options.find? (fun o => o.id == oid)

/-- The guard `if poll.end_date and poll.end_date < datetime.now()` of the
routes vote handler: true exactly when an end date is set and lies strictly
before `now`. -/
def pollEndedGate (poll : Poll) (now : Nat) : Bool :=
  match poll.end_date with
  | none => false
  | some e => decide (e < now)

/-- Number of Vote rows held by `user` against options of poll `pid`
(the quantity constrained by invariant I1). -/
def votesForUserOnPoll (s : VoteStore) (user pid : Nat) : Nat :=
  (s.votes.filter (fun v =>
    v.user_id == some user &&
      (match findPollOption s v.option_id with
       | some o => o.poll_id == pid
       | none => false))).length

/-- Number of Vote rows recorded against option `oid`
(`option.votes.count()`). -/
def optionVoteCount (s : VoteStore) (oid : Nat) : Nat :=
  (s.votes.filter (fun v => v.option_id == oid)).length

inductive VoteOutcome where
  | notFound
  | pollEnded
  | alreadyVoted
  | recorded
  deriving DecidableEq

namespace Routes

/-- The authenticated vote handler (src/app/routes.py:160-184).
Looks up the poll and the option (404 on either miss), rejects with the
poll-ended flash only when `end_date` is set and strictly before now, then
checks for an existing vote by this user ON THIS OPTION ONLY
(`Vote.query.filter_by(user_id=..., option_id=option_id)`) and inserts
when none is found. The handler never compares `option.poll_id` with
`poll_id` and never consults the poll-wide helper `Poll.has_user_voted`. -/
def vote (s : VoteStore) (now user poll_id option_id : Nat) :
    VoteOutcome × VoteStore :=
  match findPoll s poll_id with
  | none => (VoteOutcome.notFound, s)
  | some poll =>
    match findPollOption s option_id with
    | none => (VoteOutcome.notFound, s)
    | some _ =>
      if pollEndedGate poll now then (VoteOutcome.pollEnded, s)
      else
        match s.votes.find? (fun v =>
            v.user_id == some user && v.option_id == option_id) with
        | some _ => (VoteOutcome.alreadyVoted, s)
        | none =>
          (VoteOutcome.recorded,
           { s with votes :=
               s.votes ++ [{ user_id := some user, option_id := option_id }] })

end Routes

inductive ApiVoteOutcome where
  | missingOptionId
  | notFound
  | invalidOption
  | recorded
  deriving DecidableEq

namespace Api

/-- The programmatic vote endpoint `POST /polls/<poll_id>/vote`
(src/app/api.py:185-220). Requires `option_id`, 404s on a missing option,
400s when the option does not belong to the poll, and otherwise inserts
`Vote(option_id=option_id)` unconditionally: the constructed row carries no
`user_id`, the handler never reads `current_user`, never reads the clock,
and performs no duplicate check against existing votes. -/
def vote_poll (s : VoteStore) (poll_id : Nat) (option_id : Option Nat)
    (_curUser : Option Nat) : ApiVoteOutcome × VoteStore :=
  match option_id with
  | none => (ApiVoteOutcome.missingOptionId, s)
  | some oid =>
    match findPollOption s oid with
    | none => (ApiVoteOutcome.notFound, s)
    | some opt =>
      if opt.poll_id != poll_id then (ApiVoteOutcome.invalidOption, s)
      else
        (ApiVoteOutcome.recorded,
         { s with votes := s.votes ++ [{ user_id := none, option_id := oid }] })

end Api

/-- Seconds in `timedelta(minutes=n)`. -/
def minutes (n : Nat) : Nat := n * 60

/-- Seconds in `timedelta(days=n)`. -/
def days (n : Nat) : Nat := n * 86400

/-- The synthetic option text `Poll.DEFAULT_OPTION`
(src/app/models.py:153). -/
def DEFAULT_OPTION : String := "Just viewing results 🍿"

/-- The JSON body accepted by `POST /api/polls` (src/app/api.py:49-146).
Absent `title` / `poll_type` and the empty string are both falsy under the
handler's `not data.get(...)` checks, so absent strings are modelled as
`""`. `end_date` is the parsed ISO timestamp (`none` when the field is
absent); `course` and `options` carry the remaining body fields for
request-shape fidelity (`course` is read while building the constructor
call; `options` would only be read by the unreachable code after the
constructor). -/
structure ApiPollRequest where
  title : String
  poll_type : String
  description : String
  end_date : Option Nat
  course : Option String
  options : List String
  deriving DecidableEq

/-- The failures of `POST /api/polls` that are reachable in the source:
the 400 for a missing title or type, the two distinct 400 end-date
messages — `endTooSoon` ("End date must be at least 5 minutes in the
future") and `endTooFar` ("End date cannot be more than 10 days from
now") — and `internalError`, the generic 500 "Failed to create poll"
produced by the blanket except clause. -/
inductive ApiCreateError where
  | missingTitleOrType
  | endTooSoon
  | endTooFar
  | internalError
  deriving DecidableEq

/-- The shape of the success response of `POST /api/polls`
(src/app/api.py:134-141) together with the PollOption texts the success
path would commit in insertion order. The success path is unreachable in
the source (see `Api.create_poll`), so no value of this type is ever
produced. -/
structure CreatedPoll where
  end_date : Nat
  default_end_date : Nat
  max_end_date : Nat
  min_end_date : Nat
  optionTexts : List String
  deriving DecidableEq

namespace Api

/-- The programmatic poll-creation endpoint (src/app/api.py:49-146).
Checks title and type, then validates a supplied end date against
`min_end = now + 5min` (rejected as too soon when `requested_end <=
min_end`) and `max_end = now + 10d` (too far when above); an absent end
date resolves to the default `now + 3d`. Every call that survives these
checks then evaluates `Poll(..., course=..., ...)` (api.py:86-93): the
`course` keyword is passed on every call — the conditional chooses its
value, not the keyword — and the `Poll` model (src/app/models.py:152-234)
declares no such column, so the declarative model constructor raises
TypeError, which the blanket except clause (api.py:143-146) turns into a
rollback and the generic 500. The option-count check, the course check,
the option inserts including the synthetic `DEFAULT_OPTION`, and the
success response (api.py:97-141) are unreachable, so the `Except.ok`
branch of this embedding is never taken and the API never creates a
poll. -/
def create_poll (now : Nat) (req : ApiPollRequest) :
    Except ApiCreateError CreatedPoll :=
  if req.title == "" || req.poll_type == "" then
    Except.error ApiCreateError.missingTitleOrType
  else
    let max_end := now + days 10
    let min_end := now + minutes 5
    match req.end_date with
    | none => Except.error ApiCreateError.internalError
    | some requested_end =>
      if requested_end ≤ min_end then Except.error ApiCreateError.endTooSoon
      else if max_end < requested_end then Except.error ApiCreateError.endTooFar
      else Except.error ApiCreateError.internalError

end Api

/-- The fields of `PollForm` that the form-based creation route reads
(src/app/forms.py:50-75): `title` and `description` are `DataRequired`,
`end_date` is `Optional`, `poll_type` is a required select. The form has
no options field at all (its `validate_options` method is attached to no
field and never runs). -/
structure FormPollRequest where
  title : String
  description : String
  poll_type : String
  end_date : Option Nat
  deriving DecidableEq

/-- The `Poll` row created by the form-based route: the columns it passes
to the constructor (src/app/routes.py:117-123). -/
structure FormPoll where
  title : String
  description : String
  poll_type : String
  end_date : Option Nat
  user_id : Nat
  deriving DecidableEq

namespace PollForm

/-- `PollForm.validate_end_date` (src/app/forms.py:68-70): a supplied end
date fails only when it is strictly in the past (`field.data <
datetime.now()`); an absent end date passes unconditionally. -/
def validate_end_date (now : Nat) (d : Option Nat) : Bool :=
  match d with
  | none => true
  | some t => !(decide (t < now))

end PollForm

namespace Routes

/-- The form-based poll-creation route (src/app/routes.py:112-128). On a
valid form it stores the form's `end_date` verbatim — including `none` when
the field was left empty — and commits only the `Poll` row: no `PollOption`
row of any kind is created, which the empty second component records. An
invalid form re-renders the page and creates nothing. -/
def create_poll (now user : Nat) (req : FormPollRequest) :
    Except Unit (FormPoll × List String) :=
  if req.title == "" || req.description == "" || req.poll_type == "" then
    Except.error ()
  else if PollForm.validate_end_date now req.end_date then
    Except.ok
      ({ title := req.title
         description := req.description
         poll_type := req.poll_type
         end_date := req.end_date
         user_id := user }, [])
  else Except.error ()

end Routes

/-- The `DirectMessage` row (src/app/models.py:455-465), restricted to the
columns the chat route writes. -/
structure DirectMessage where
  sender_id : Nat
  recipient_id : Nat
  content : String
  deriving DecidableEq

/-- The slice of the store that the messaging path touches: the user table
(ids only), the `follows` edge table as ordered pairs
`(follower_id, followed_id)`, and the direct messages. -/
structure SocialStore where
  users : List Nat
  follows : List (Nat × Nat)
  messages : List DirectMessage
  deriving DecidableEq

namespace User

/-- `User.is_following` (src/app/models.py:98-99): true when a Follow edge
from `a` to `b` exists. -/
def is_following (s : SocialStore) (a b : Nat) : Bool :=
  s.follows.any (fun p => p.1 == a && p.2 == b)

/-- `User.can_dm` (src/app/models.py:129-131): mutual follow in both
directions. Defined in the model layer but never called by the chat
route. -/
def can_dm (s : SocialStore) (a b : Nat) : Bool :=
  is_following s a b && is_following s b a

end User

inductive ChatOutcome where
  | notFound
  | notFollowing
  | noContent
  | sent
  deriving DecidableEq

namespace Routes

/-- The message-sending path of the chat route (src/app/routes.py:1020-1063,
POST branch). After `get_or_404` on the recipient, the ONLY gate is
`current_user.is_following(other_user)` — one direction; the mutual-follow
helper `User.can_dm` is not consulted. With a nonempty `content` field a
`DirectMessage` row is inserted and committed; empty content falls through
to rendering with no insert. -/
def chat (s : SocialStore) (sender recipient : Nat) (content : String) :
    ChatOutcome × SocialStore :=
  if !(s.users.contains recipient) then (ChatOutcome.notFound, s)
  else if !(User.is_following s sender recipient) then
    (ChatOutcome.notFollowing, s)
  else if content == "" then (ChatOutcome.noContent, s)
  else
    (ChatOutcome.sent,
     { s with messages := s.messages ++
         [{ sender_id := sender, recipient_id := recipient,
            content := content }] })

end Routes

/-- The follow tables: `follows` rows as `(follower_id, followed_id)` and
`follow_requests` rows as `(requester_id, requested_id)`
(src/app/models.py:371-385). -/
structure FollowGraph where
  follows : List (Nat × Nat)
  requests : List (Nat × Nat)
  deriving DecidableEq

/-- Mirrors `owner.follow_requests_received.filter_by(requester_id=...)
.first() is not None`: a pending request from `requester` to `owner`. -/
def pendingRequest (g : FollowGraph) (requester owner : Nat) : Bool :=
  g.requests.any (fun p => p.1 == requester && p.2 == owner)

inductive AcceptOutcome where
  | accepted
  | notFound
  deriving DecidableEq

namespace Routes

/-- The accept-follow route (src/app/routes.py:553-572) combined with
`User.accept_follow_request` (src/app/models.py:109-122). The route 404s
when no pending request from `requester` to `owner` exists; otherwise the
model method creates the edge `requester → owner`, deletes the request row
it fetched, and commits both in one transaction (rolling back together on
failure), so the embedding performs both effects in a single step. -/
def accept_follow (g : FollowGraph) (owner requester : Nat) :
    AcceptOutcome × FollowGraph :=
  if pendingRequest g requester owner then
    (AcceptOutcome.accepted,
     { follows := g.follows ++ [(requester, owner)],
       requests := eraseFirst (fun p => p.1 == requester && p.2 == owner)
         g.requests })
  else (AcceptOutcome.notFound, g)

end Routes

/-- The slice of the store that the upvote toggle touches: the poll table
(ids only) and the `PollVote` rows as `(user_id, poll_id)` pairs
(src/app/models.py:387-394; the table has a unique constraint on that
pair). -/
structure UpvoteStore where
  polls : List Nat
  pollVotes : List (Nat × Nat)
  deriving DecidableEq

/-- `Poll.upvote_count` (src/app/models.py:170-172): number of PollVote
rows for the poll. -/
def upvote_count (s : UpvoteStore) (pid : Nat) : Nat :=
  (s.pollVotes.filter (fun p => p.2 == pid)).length

/-- Mirrors `PollVote.query.filter_by(user_id=..., poll_id=...).first()
is not None`. -/
def hasUpvote (s : UpvoteStore) (user pid : Nat) : Bool :=
  s.pollVotes.any (fun p => p.1 == user && p.2 == pid)

inductive UpvoteOutcome where
  | notFound
  | removed (count : Nat)
  | added (count : Nat)
  deriving DecidableEq

namespace Routes

/-- The upvote toggle route (src/app/routes.py:825-852, `login_required` so
`user` is an authenticated id). When a PollVote row for `(user, poll)`
exists it is deleted and `removed` is reported, otherwise one is inserted
and `added` is reported; either way the count sent back is
`poll.upvote_count` read AFTER the commit, which the embedding computes on
the post state. -/
def upvote_poll (s : UpvoteStore) (user pid : Nat) :
    UpvoteOutcome × UpvoteStore :=
  if !(s.polls.contains pid) then (UpvoteOutcome.notFound, s)
  else if hasUpvote s user pid then
    let s2 : UpvoteStore :=
      { s with pollVotes :=
          eraseFirst (fun p => p.1 == user && p.2 == pid) s.pollVotes }
    (UpvoteOutcome.removed (upvote_count s2 pid), s2)
  else
    let s2 : UpvoteStore := { s with pollVotes := s.pollVotes ++ [(user, pid)] }
    (UpvoteOutcome.added (upvote_count s2 pid), s2)

end Routes

/-- The `Community` row (src/app/models.py:406-423); the table carries a
unique constraint on `(university, program)`. -/
structure Community where
  id : Nat
  name : String
  university : String
  program : String
  description : String
  created_by_id : Nat
  deriving DecidableEq

/-- The community tables: rows plus `community_members` as
`(user_id, community_id)` pairs; `nextId` models the autoincrement key the
`db.session.flush()` assigns to a new row. -/
structure CommunityStore where
  communities : List Community
  members : List (Nat × Nat)
  nextId : Nat
  deriving DecidableEq

/-- Mirrors `Community.query.filter_by(university=..., program=...).first()`. -/
def findCommunity (s : CommunityStore) (university program : String) :
    Option Community :=
  s.communities.find? (fun c => c.university == university && c.program == program)

/-- Number of Community rows for one `(university, program)` pair. -/
def communityPairCount (s : CommunityStore) (university program : String) : Nat :=
  (s.communities.filter (fun c =>
    c.university == university && c.program == program)).length

/-- Invariant of the unique constraint `unique_university_program`: at most
one Community row per `(university, program)`. -/
def uniqueCommunityPairs (s : CommunityStore) : Prop :=
  ∀ u p, communityPairCount s u p ≤ 1

inductive CreateCommunityOutcome where
  | duplicate (existingId : Nat)
  | created (newId : Nat)
  deriving DecidableEq

namespace Routes

/-- The community-creation route (src/app/routes.py:884-929). It first
looks for an existing community with the same `(university, program)` and,
if found, redirects to it without touching the store; otherwise it builds
the row with `name = f"{university} - {program}"`, flushes to obtain the
id, adds the creator membership, and commits both in one transaction. -/
def create_community (s : CommunityStore) (actor : Nat)
    (university program description : String) :
    CreateCommunityOutcome × CommunityStore :=
  match findCommunity s university program with
  | some existing => (CreateCommunityOutcome.duplicate existing.id, s)
  | none =>
    let c : Community :=
      { id := s.nextId
        name := university ++ " - " ++ program
        university := university
        program := program
        description := description
        created_by_id := actor }
    (CreateCommunityOutcome.created s.nextId,
     { communities := s.communities ++ [c],
       members := s.members ++ [(actor, s.nextId)],
       nextId := s.nextId + 1 })

end Routes

/-- The `Comment` row (src/app/models.py:248-265): author, poll, and the
nullable `parent_id` forming the reply tree. The `replies` relationship is
declared with `cascade all, delete-orphan`, so deleting a comment deletes
its whole reply subtree. -/
structure Comment where
  id : Nat
  author_id : Nat
  poll_id : Nat
  parent_id : Option Nat
  deriving DecidableEq

structure CommentStore where
  comments : List Comment
  deriving DecidableEq

/-- Mirrors `Comment.query.get_or_404(comment_id)` (as a lookup that can
miss). -/
def getComment (s : CommentStore) (cid : Nat) : Option Comment :=
  s.comments.find? (fun c => c.id == cid)

/-- The chain of ids from `cid` up through `parent_id` links, cut off by
the fuel (one more than the table size always suffices on an acyclic
tree). -/
def chainUp (s : CommentStore) : Nat → Nat → List Nat
  | 0, _ => []
  | Nat.succ fuel, cid =>
    cid :: (match getComment s cid with
            | some c =>
              match c.parent_id with
              | some p => chainUp s fuel p
              | none => []
            | none => [])

/-- Comment `cid` lies in the reply subtree rooted at `root`: the root
itself, or a comment whose ancestor chain reaches `root`. -/
def inSubtree (s : CommentStore) (root cid : Nat) : Bool :=
  (chainUp s (s.comments.length + 1) cid).contains root

inductive DeleteCommentOutcome where
  | notFound
  | unauthorized
  | deleted
  deriving DecidableEq

namespace Routes

/-- The comment-deletion route (src/app/routes.py:768-785). After
`get_or_404`, only the author may delete (403 otherwise, nothing removed);
`db.session.delete(comment)` then removes the comment and, through the
declared `cascade all, delete-orphan` on `replies`
(src/app/models.py:257-262), its entire reply subtree. -/
def delete_comment (s : CommentStore) (actor cid : Nat) :
    DeleteCommentOutcome × CommentStore :=
  match getComment s cid with
  | none => (DeleteCommentOutcome.notFound, s)
  | some c =>
    if c.author_id != actor then (DeleteCommentOutcome.unauthorized, s)
    else
      (DeleteCommentOutcome.deleted,
       { comments := s.comments.filter (fun d => !(inSubtree s cid d.id)) })

end Routes

deriving instance DecidableEq for Except

/-! Helper lemmas about list-level store operations. -/

theorem eraseFirst_append_left {α : Type} (p : α → Bool) (l₁ l₂ : List α)
    (h : l₁.any p = false) :
    eraseFirst p (l₁ ++ l₂) = l₁ ++ eraseFirst p l₂ := by
  induction l₁ with
  | nil => rfl
  | cons a t ih =>
    simp only [List.any_cons, Bool.or_eq_false_iff] at h
    simp [eraseFirst, h.1, ih h.2]

theorem any_eraseFirst_eq_false {α : Type} (p : α → Bool) (l : List α)
    (h : (l.filter p).length ≤ 1) : (eraseFirst p l).any p = false := by
  induction l with
  | nil => rfl
  | cons a t ih =>
    cases hp : p a with
    | true =>
      have h1 : (t.filter p).length + 1 ≤ 1 := by
        simpa [List.filter_cons, hp] using h
      have hf : t.filter p = [] := List.length_eq_zero.mp (by omega)
      have hall := List.filter_eq_nil_iff.mp hf
      simp only [eraseFirst, hp, if_pos, List.any_eq_false]
      intro x hx
      cases hpx : p x with
      | false => simp
      | true => exact absurd hpx (hall x hx)
    | false =>
      have ht : (t.filter p).length ≤ 1 := by
        simpa [List.filter_cons, hp] using h
      simp [eraseFirst, hp, List.any_cons, ih ht]

theorem filter_length_eraseFirst {α : Type} (p q : α → Bool) (l : List α)
    (hpq : ∀ a, p a = true → q a = true) (h : l.any p = true) :
    ((eraseFirst p l).filter q).length + 1 = (l.filter q).length := by
  induction l with
  | nil => simp at h
  | cons a t ih =>
    cases hp : p a with
    | true => simp [eraseFirst, hp, List.filter_cons, hpq a hp]
    | false =>
      have ht : t.any p = true := by
        simpa [List.any_cons, hp] using h
      cases hq : q a with
      | true =>
        have hih := ih ht
        simp only [eraseFirst, hp, Bool.false_eq_true, if_false,
          List.filter_cons, hq, if_pos, List.length_cons]
        omega
      | false =>
        simp [eraseFirst, hp, List.filter_cons, hq, ih ht]

/-- Unfolding of the upvote toggle on a state that already holds the
PollVote row. -/
theorem upvote_poll_of_has (s : UpvoteStore) (user pid : Nat)
    (hpoll : s.polls.contains pid = true)
    (h : hasUpvote s user pid = true) :
    Routes.upvote_poll s user pid =
      (UpvoteOutcome.removed (upvote_count
        { s with pollVotes :=
            eraseFirst (fun p => p.1 == user && p.2 == pid) s.pollVotes } pid),
       { s with pollVotes :=
           eraseFirst (fun p => p.1 == user && p.2 == pid) s.pollVotes }) := by
  have hmem : pid ∈ s.polls := by simpa using hpoll
  simp [Routes.upvote_poll, hmem, h]

/-- Unfolding of the upvote toggle on a state without the PollVote row. -/
theorem upvote_poll_of_not_has (s : UpvoteStore) (user pid : Nat)
    (hpoll : s.polls.contains pid = true)
    (h : hasUpvote s user pid = false) :
    Routes.upvote_poll s user pid =
      (UpvoteOutcome.added (upvote_count
        { s with pollVotes := s.pollVotes ++ [(user, pid)] } pid),
       { s with pollVotes := s.pollVotes ++ [(user, pid)] }) := by
  have hmem : pid ∈ s.polls := by simpa using hpoll
  simp [Routes.upvote_poll, hmem, h]

/-- Appending one PollVote row for a poll raises its upvote count by
exactly one. -/
theorem upvote_count_append_self (s : UpvoteStore) (user pid : Nat) :
    upvote_count { s with pollVotes := s.pollVotes ++ [(user, pid)] } pid =
      upvote_count s pid + 1 := by
  simp [upvote_count, List.filter_append]

/-- Every branch of the API poll-creation embedding is an error: the
source handler either fails one of its explicit validations or raises
TypeError on the undeclared `course` keyword, so it never returns the
success response. -/
theorem api_create_poll_never_ok (now : Nat) (req : ApiPollRequest)
    (cp : CreatedPoll) : Api.create_poll now req ≠ Except.ok cp := by
  intro h
  simp only [Api.create_poll] at h
  split at h
  · exact absurd h (by simp)
  · split at h
    · exact absurd h (by simp)
    · split at h
      · exact absurd h (by simp)
      · split at h
        · exact absurd h (by simp)
        · exact absurd h (by simp)

/-! Claim theorems. -/

/-- C1: the claim demands at most one Vote per (user, poll) across all of a
poll's options, with a poll-wide AlreadyVoted rejection. The vote route
checks duplicates only per option, so user 7 votes on option 1 and then on
option 2 of the same poll 1 and both calls are recorded, leaving two Vote
rows for (user 7, poll 1) — the code contradicts its own flash message
("You have already voted on this poll") and its poll-wide helper
`Poll.has_user_voted`. -/
theorem c1_vote_route_allows_second_option_vote :
    let s0 : VoteStore :=
      { polls := [{ id := 1, end_date := none }],
        options := [{ id := 1, poll_id := 1 }, { id := 2, poll_id := 1 }],
        votes := [] }
    let r1 := Routes.vote s0 0 7 1 1
    let r2 := Routes.vote r1.2 0 7 1 2
    r1.1 = VoteOutcome.recorded ∧ r2.1 = VoteOutcome.recorded ∧
      votesForUserOnPoll r2.2 7 1 = 2 := by decide

/-- C2 counterexample: the claim fails on the code in three ways exhibited
at `now = 1000`. The form-based creation route stores a null end date when
none is supplied (not now + 3 days); the API rejects an end date of exactly
now + 5 minutes although the claim allows the closed interval; and the
form-based route accepts an end date of now + 11 days with no upper-bound
check. -/
theorem c2_end_date_window_counterexample :
    (Routes.create_poll 1000 1
       { title := "t", description := "d", poll_type := "general",
         end_date := none } =
      Except.ok
        ({ title := "t", description := "d", poll_type := "general",
           end_date := none, user_id := 1 }, [])) ∧
    (Api.create_poll 1000
       { title := "t", poll_type := "general", description := "d",
         end_date := some (1000 + minutes 5), course := none,
         options := ["a", "b"] } =
      Except.error ApiCreateError.endTooSoon) ∧
    (Routes.create_poll 1000 1
       { title := "t", description := "d", poll_type := "general",
         end_date := some (1000 + days 11) } =
      Except.ok
        ({ title := "t", description := "d", poll_type := "general",
           end_date := some (1000 + days 11), user_id := 1 }, [])) := by
  decide

/-- C2 (amended): for the programmatic API, a supplied end date at or
below now + 5 minutes fails with the distinguished endTooSoon validation
error and one above now + 10 days with the distinct endTooFar error,
creating no poll; every call that passes the end-date validation —
including every call with no end date, which would default to now + 3
days — then fails with the generic 500 internal error raised by the
undeclared course keyword in the Poll constructor call, so the API never
creates a poll. The form-based creation route instead stores the supplied
end date unchanged, rejects only an end date strictly in the past, and
stores a null end date when none is supplied. -/
theorem c2_end_date_resolution_amended (now : Nat) (req : ApiPollRequest)
    (hty : (req.title == "" || req.poll_type == "") = false) :
    (∀ d, req.end_date = some d → d ≤ now + minutes 5 →
      Api.create_poll now req = Except.error ApiCreateError.endTooSoon) ∧
    (∀ d, req.end_date = some d → now + minutes 5 < d → now + days 10 < d →
      Api.create_poll now req = Except.error ApiCreateError.endTooFar) ∧
    (req.end_date = none →
      Api.create_poll now req = Except.error ApiCreateError.internalError) ∧
    (∀ d, req.end_date = some d → now + minutes 5 < d → d ≤ now + days 10 →
      Api.create_poll now req = Except.error ApiCreateError.internalError) ∧
    (∀ (n2 : Nat) (r2 : ApiPollRequest) (cp : CreatedPoll),
      Api.create_poll n2 r2 ≠ Except.ok cp) ∧
    (∀ (user : Nat) (freq : FormPollRequest),
      (freq.title == "" || freq.description == "" || freq.poll_type == "")
        = false →
      ((freq.end_date = none ∨ ∃ d, freq.end_date = some d ∧ now ≤ d) →
        Routes.create_poll now user freq = Except.ok
          ({ title := freq.title, description := freq.description,
             poll_type := freq.poll_type, end_date := freq.end_date,
             user_id := user }, [])) ∧
      (∀ d, freq.end_date = some d → d < now →
        Routes.create_poll now user freq = Except.error ())) := by
  refine ⟨?_, ?_, ?_, ?_, ?_, ?_⟩
  · intro d hd hle
    simp [Api.create_poll, hty, hd, hle]
  · intro d hd hgt hfar
    have h1 : ¬ d ≤ now + minutes 5 := by omega
    simp [Api.create_poll, hty, hd, h1, hfar]
  · intro hnone
    simp [Api.create_poll, hty, hnone]
  · intro d hd hgt hle
    have h1 : ¬ d ≤ now + minutes 5 := by omega
    have h2 : ¬ now + days 10 < d := by omega
    simp [Api.create_poll, hty, hd, h1, h2]
  · intro n2 r2 cp
    exact api_create_poll_never_ok n2 r2 cp
  · intro user freq hfreq
    constructor
    · intro hok
      have hval : PollForm.validate_end_date now freq.end_date = true := by
        rcases hok with hnone | ⟨d, hd, hge⟩
        · simp [PollForm.validate_end_date, hnone]
        · simp [PollForm.validate_end_date, hd]
          omega
      simp [Routes.create_poll, hfreq, hval]
    · intro d hd hlt
      have hval : PollForm.validate_end_date now freq.end_date = false := by
        simp [PollForm.validate_end_date, hd]
        omega
      simp [Routes.create_poll, hfreq, hval]

/-- C2 witness: the amended theorem applied at now = 0 to a concrete
request whose end date lies inside the validation window (one day out),
which still creates no poll: the call fails with the internal error. -/
theorem c2_end_date_resolution_witness :
    (("t" == "" || "general" == "") = false) ∧
    Api.create_poll 0
      { title := "t", poll_type := "general", description := "d",
        end_date := some (days 1), course := none, options := ["a", "b"] } =
      Except.error ApiCreateError.internalError :=
  ⟨by decide,
   (c2_end_date_resolution_amended 0
     { title := "t", poll_type := "general", description := "d",
       end_date := some (days 1), course := none, options := ["a", "b"] }
     (by decide)).2.2.2.1 (days 1) rfl (by decide) (by decide)⟩

/-- C3 counterexample: the claim requires mutual follow for a
DirectMessage, but in a state where user 1 follows user 2 and user 2 does
NOT follow user 1 (so `can_dm` is false), the chat route still creates the
DirectMessage row. -/
theorem c3_mutual_follow_counterexample :
    let s : SocialStore := { users := [1, 2], follows := [(1, 2)], messages := [] }
    User.can_dm s 1 2 = false ∧ User.is_following s 2 1 = false ∧
      Routes.chat s 1 2 "hi" =
        (ChatOutcome.sent,
         { users := [1, 2], follows := [(1, 2)],
           messages := [{ sender_id := 1, recipient_id := 2, content := "hi" }] }) := by
  decide

/-- C3 (amended): a DirectMessage with sender S and recipient R is created
exactly when the single Follow edge S → R exists (and the content is
nonempty); the reverse edge R → S is not required, and when S does not
follow R the send operation creates no DirectMessage row and leaves the
store unchanged. The mutual-follow predicate `can_dm` exists in the model
layer but the chat route does not consult it. -/
theorem c3_dm_requires_one_direction_follow (s : SocialStore)
    (sender recipient : Nat) (content : String)
    (hrec : s.users.contains recipient = true)
    (hcontent : (content == "") = false) :
    (User.is_following s sender recipient = true →
      Routes.chat s sender recipient content =
        (ChatOutcome.sent,
         { s with messages := s.messages ++
             [{ sender_id := sender, recipient_id := recipient,
                content := content }] })) ∧
    (User.is_following s sender recipient = false →
      Routes.chat s sender recipient content = (ChatOutcome.notFollowing, s)) := by
  have hmem : recipient ∈ s.users := by simpa using hrec
  constructor
  · intro hf
    simp [Routes.chat, hmem, hf, hcontent]
  · intro hf
    simp [Routes.chat, hmem, hf]

/-- C3 witness: the amended theorem applied to the concrete one-directional
state of the counterexample. -/
theorem c3_dm_requires_one_direction_follow_witness :
    (User.is_following
      { users := [1, 2], follows := [(1, 2)], messages := [] } 1 2 = true) ∧
    Routes.chat { users := [1, 2], follows := [(1, 2)], messages := [] } 1 2 "hi" =
      (ChatOutcome.sent,
       { users := [1, 2], follows := [(1, 2)],
         messages := [{ sender_id := 1, recipient_id := 2, content := "hi" }] }) :=
  ⟨by decide,
   (c3_dm_requires_one_direction_follow
     { users := [1, 2], follows := [(1, 2)], messages := [] } 1 2 "hi"
     (by decide) (by decide)).1 (by decide)⟩

/-- C4: when a pending FollowRequest from the requester to the owner
exists, accepting it yields, in one atomic step, a state with the Follow
edge requester → owner appended and that request removed; the post state no
longer holds the pending request, so an immediate repeat of the same call
fails NotFound and changes nothing; and when no pending request exists the
call fails NotFound leaving the store unchanged. The uniqueness hypothesis
reflects the composite primary key of `follow_requests` (at most one
pending row per ordered pair). -/
theorem c4_accept_follow_request_atomic (g : FollowGraph) (owner requester : Nat)
    (huniq : (g.requests.filter
      (fun p => p.1 == requester && p.2 == owner)).length ≤ 1) :
    (pendingRequest g requester owner = true →
      Routes.accept_follow g owner requester =
        (AcceptOutcome.accepted,
         { follows := g.follows ++ [(requester, owner)],
           requests := eraseFirst (fun p => p.1 == requester && p.2 == owner)
             g.requests }) ∧
      (requester, owner) ∈ (Routes.accept_follow g owner requester).2.follows ∧
      pendingRequest (Routes.accept_follow g owner requester).2 requester owner
        = false ∧
      Routes.accept_follow (Routes.accept_follow g owner requester).2 owner
          requester =
        (AcceptOutcome.notFound, (Routes.accept_follow g owner requester).2)) ∧
    (pendingRequest g requester owner = false →
      Routes.accept_follow g owner requester = (AcceptOutcome.notFound, g)) := by
  constructor
  · intro hpend
    have hstep : Routes.accept_follow g owner requester =
        (AcceptOutcome.accepted,
         { follows := g.follows ++ [(requester, owner)],
           requests := eraseFirst (fun p => p.1 == requester && p.2 == owner)
             g.requests }) := by
      simp [Routes.accept_follow, hpend]
    have hgone : pendingRequest (Routes.accept_follow g owner requester).2
        requester owner = false := by
      rw [hstep]
      simpa [pendingRequest] using
        any_eraseFirst_eq_false (fun p => p.1 == requester && p.2 == owner)
          g.requests huniq
    refine ⟨hstep, ?_, hgone, ?_⟩
    · rw [hstep]; simp
    · rw [hstep] at hgone ⊢
      simp [Routes.accept_follow, hgone]
  · intro hnp
    simp [Routes.accept_follow, hnp]

/-- C4 witness: the atomicity theorem applied to a concrete graph holding
one pending request from user 2 to user 1 and no Follow edges. -/
theorem c4_accept_follow_request_atomic_witness :
    ((FollowGraph.mk [] [(2, 1)]).requests.filter
      (fun p => p.1 == 2 && p.2 == 1)).length ≤ 1 ∧
    (pendingRequest (FollowGraph.mk [] [(2, 1)]) 2 1 = true) ∧
    pendingRequest (Routes.accept_follow (FollowGraph.mk [] [(2, 1)]) 1 2).2 2 1
      = false ∧
    Routes.accept_follow (Routes.accept_follow (FollowGraph.mk [] [(2, 1)]) 1 2).2
        1 2 =
      (AcceptOutcome.notFound,
       (Routes.accept_follow (FollowGraph.mk [] [(2, 1)]) 1 2).2) :=
  ⟨by decide, by decide,
   ((c4_accept_follow_request_atomic (FollowGraph.mk [] [(2, 1)]) 1 2
      (by decide)).1 (by decide)).2.2.1,
   ((c4_accept_follow_request_atomic (FollowGraph.mk [] [(2, 1)]) 1 2
      (by decide)).1 (by decide)).2.2.2⟩

/-- C5: for an authenticated user and an existing poll, the upvote toggle
reports removed and deletes the PollVote row when one exists for the pair,
otherwise inserts one and reports added, returning the count read from the
fresh post state either way; starting from a state without the row, two
successive toggles report added with count N + 1 then removed with count N
and return the store exactly to its original value, and in general the
double toggle restores the (user, poll) membership. The uniqueness
hypothesis reflects the unique constraint on `(user_id, poll_id)`. -/
theorem c5_toggle_upvote_roundtrip (s : UpvoteStore) (user pid : Nat)
    (hpoll : s.polls.contains pid = true)
    (huniq : (s.pollVotes.filter
      (fun p => p.1 == user && p.2 == pid)).length ≤ 1) :
    (hasUpvote s user pid = true →
      (Routes.upvote_poll s user pid).1 =
        UpvoteOutcome.removed
          (upvote_count (Routes.upvote_poll s user pid).2 pid) ∧
      hasUpvote (Routes.upvote_poll s user pid).2 user pid = false ∧
      upvote_count (Routes.upvote_poll s user pid).2 pid + 1 =
        upvote_count s pid) ∧
    (hasUpvote s user pid = false →
      (Routes.upvote_poll s user pid).1 =
        UpvoteOutcome.added (upvote_count s pid + 1) ∧
      hasUpvote (Routes.upvote_poll s user pid).2 user pid = true ∧
      Routes.upvote_poll (Routes.upvote_poll s user pid).2 user pid =
        (UpvoteOutcome.removed (upvote_count s pid), s)) ∧
    hasUpvote
        (Routes.upvote_poll (Routes.upvote_poll s user pid).2 user pid).2
        user pid =
      hasUpvote s user pid := by
  have hremoved : hasUpvote s user pid = true →
      (Routes.upvote_poll s user pid).1 =
        UpvoteOutcome.removed
          (upvote_count (Routes.upvote_poll s user pid).2 pid) ∧
      hasUpvote (Routes.upvote_poll s user pid).2 user pid = false ∧
      upvote_count (Routes.upvote_poll s user pid).2 pid + 1 =
        upvote_count s pid := by
    intro h
    have hstep := upvote_poll_of_has s user pid hpoll h
    rw [hstep]
    refine ⟨rfl, ?_, ?_⟩
    · simpa [hasUpvote] using
        any_eraseFirst_eq_false (fun p => p.1 == user && p.2 == pid)
          s.pollVotes huniq
    · have hany : s.pollVotes.any (fun p => p.1 == user && p.2 == pid) = true := h
      have hpq : ∀ a : Nat × Nat,
          (a.1 == user && a.2 == pid) = true → (a.2 == pid) = true := by
        intro a ha
        exact (Bool.and_eq_true _ _).mp ha |>.2
      simpa [upvote_count] using
        filter_length_eraseFirst (fun p => p.1 == user && p.2 == pid)
          (fun p => p.2 == pid) s.pollVotes hpq hany
  have hadded : hasUpvote s user pid = false →
      (Routes.upvote_poll s user pid).1 =
        UpvoteOutcome.added (upvote_count s pid + 1) ∧
      hasUpvote (Routes.upvote_poll s user pid).2 user pid = true ∧
      Routes.upvote_poll (Routes.upvote_poll s user pid).2 user pid =
        (UpvoteOutcome.removed (upvote_count s pid), s) := by
    intro h
    have hstep := upvote_poll_of_not_has s user pid hpoll h
    have hcnt := upvote_count_append_self s user pid
    have hhas2 : hasUpvote (Routes.upvote_poll s user pid).2 user pid = true := by
      rw [hstep]
      simp [hasUpvote, List.any_append]
    refine ⟨by rw [hstep, hcnt], hhas2, ?_⟩
    have hstep2 := upvote_poll_of_has (Routes.upvote_poll s user pid).2 user pid
      (by rw [hstep]; exact hpoll) hhas2
    have herase : eraseFirst (fun p => p.1 == user && p.2 == pid)
        (s.pollVotes ++ [(user, pid)]) = s.pollVotes := by
      rw [eraseFirst_append_left _ _ _ h]
      simp [eraseFirst]
    rw [hstep2, hstep]
    simp only [herase]
  refine ⟨hremoved, hadded, ?_⟩
  cases h : hasUpvote s user pid with
  | false =>
    have := (hadded h).2.2
    rw [this]
    exact h
  | true =>
    have h2 := (hremoved h).2.1
    have hp2 : (Routes.upvote_poll s user pid).2.polls.contains pid = true := by
      rw [upvote_poll_of_has s user pid hpoll h]
      exact hpoll
    have := (upvote_poll_of_not_has _ user pid hp2 h2)
    rw [this]
    simp [hasUpvote, List.any_append]

/-- C5 witness: the toggle theorem applied to poll 1 with no existing
upvotes and user 5. -/
theorem c5_toggle_upvote_roundtrip_witness :
    (hasUpvote (UpvoteStore.mk [1] []) 5 1 = false) ∧
    (Routes.upvote_poll (UpvoteStore.mk [1] []) 5 1).1 =
      UpvoteOutcome.added (upvote_count (UpvoteStore.mk [1] []) 1 + 1) ∧
    Routes.upvote_poll (Routes.upvote_poll (UpvoteStore.mk [1] []) 5 1).2 5 1 =
      (UpvoteOutcome.removed (upvote_count (UpvoteStore.mk [1] []) 1),
       UpvoteStore.mk [1] []) :=
  ⟨by decide,
   ((c5_toggle_upvote_roundtrip (UpvoteStore.mk [1] []) 5 1
      (by decide) (by decide)).2.1 (by decide)).1,
   ((c5_toggle_upvote_roundtrip (UpvoteStore.mk [1] []) 5 1
      (by decide) (by decide)).2.1 (by decide)).2.2⟩

/-- C6 counterexample: the claim requires a vote to fail with PollEnded
whenever end_date ≤ now, but at end_date = now = 100 the web route records
the vote (its gate uses strict less-than), and the API vote endpoint
records a vote on a poll whose end date (0) is long past, since it reads
no clock at all. -/
theorem c6_poll_ended_gate_counterexample :
    (let sA : VoteStore :=
      { polls := [{ id := 1, end_date := some 100 }],
        options := [{ id := 1, poll_id := 1 }],
        votes := [] }
     (Routes.vote sA 100 7 1 1).1 = VoteOutcome.recorded ∧
       (Routes.vote sA 100 7 1 1).2.votes.length = 1) ∧
    (let sB : VoteStore :=
      { polls := [{ id := 1, end_date := some 0 }],
        options := [{ id := 1, poll_id := 1 }],
        votes := [] }
     (Api.vote_poll sB 1 (some 1) none).1 = ApiVoteOutcome.recorded ∧
       (Api.vote_poll sB 1 (some 1) none).2.votes.length = 1) := by
  decide

/-- C6 (amended): a web-route vote on an option of poll P fails with
PollEnded and inserts nothing exactly when P has an end date strictly
before now; a poll with a null end date or end_date ≥ now (including
end_date = now) accepts the vote. The programmatic API vote endpoint
performs no end-date check and records the vote regardless of the poll's
end date. -/
theorem c6_poll_ended_gate_amended (s : VoteStore) (now user pid oid : Nat)
    (poll : Poll) (opt : PollOption)
    (hp : findPoll s pid = some poll) (ho : findPollOption s oid = some opt) :
    (∀ e, poll.end_date = some e → e < now →
      Routes.vote s now user pid oid = (VoteOutcome.pollEnded, s)) ∧
    ((poll.end_date = none ∨ ∃ e, poll.end_date = some e ∧ now ≤ e) →
      s.votes.find? (fun v => v.user_id == some user && v.option_id == oid)
        = none →
      Routes.vote s now user pid oid =
        (VoteOutcome.recorded,
         { s with votes :=
             s.votes ++ [{ user_id := some user, option_id := oid }] })) ∧
    (∀ (s2 : VoteStore) (pid2 oid2 : Nat) (cu : Option Nat)
        (opt2 : PollOption),
      findPollOption s2 oid2 = some opt2 → opt2.poll_id = pid2 →
      (Api.vote_poll s2 pid2 (some oid2) cu).1 = ApiVoteOutcome.recorded) := by
  refine ⟨?_, ?_, ?_⟩
  · intro e he hlt
    simp [Routes.vote, hp, ho, pollEndedGate, he, hlt]
  · intro hactive hnov
    have hgate : pollEndedGate poll now = false := by
      rcases hactive with hnone | ⟨e, he, hge⟩
      · simp [pollEndedGate, hnone]
      · simp [pollEndedGate, he]
        omega
    simp [Routes.vote, hp, ho, hgate, hnov]
  · intro s2 pid2 oid2 cu opt2 h1 h2
    simp [Api.vote_poll, h1, h2]

/-- C6 witness: the amended theorem applied to a poll whose end date 50 is
strictly before now = 51, which is rejected as ended. -/
theorem c6_poll_ended_gate_witness :
    (findPoll
      { polls := [{ id := 1, end_date := some 50 }],
        options := [{ id := 1, poll_id := 1 }], votes := [] } 1 =
      some { id := 1, end_date := some 50 }) ∧
    Routes.vote
      { polls := [{ id := 1, end_date := some 50 }],
        options := [{ id := 1, poll_id := 1 }], votes := [] } 51 7 1 1 =
      (VoteOutcome.pollEnded,
       { polls := [{ id := 1, end_date := some 50 }],
         options := [{ id := 1, poll_id := 1 }], votes := [] }) :=
  ⟨by decide,
   (c6_poll_ended_gate_amended
     { polls := [{ id := 1, end_date := some 50 }],
       options := [{ id := 1, poll_id := 1 }], votes := [] } 51 7 1 1
     { id := 1, end_date := some 50 } { id := 1, poll_id := 1 }
     (by decide) (by decide)).1 50 rfl (by decide)⟩

/-- C7: community creation fails as a duplicate (leaving the store exactly
as it was, so no second row) when a community for the same
(university, program) pair exists, and otherwise creates the community and
the creator membership in one step, after which the creator is a member;
the at-most-one-community-per-pair invariant is preserved by the
operation. -/
theorem c7_create_community_unique_pair (s : CommunityStore) (actor : Nat)
    (university program description : String) :
    (∀ ex, findCommunity s university program = some ex →
      Routes.create_community s actor university program description =
        (CreateCommunityOutcome.duplicate ex.id, s)) ∧
    (findCommunity s university program = none →
      Routes.create_community s actor university program description =
        (CreateCommunityOutcome.created s.nextId,
         { communities := s.communities ++
             [{ id := s.nextId, name := university ++ " - " ++ program,
                university := university, program := program,
                description := description, created_by_id := actor }],
           members := s.members ++ [(actor, s.nextId)],
           nextId := s.nextId + 1 }) ∧
      (actor, s.nextId) ∈
        (Routes.create_community s actor university program description).2.members ∧
      (uniqueCommunityPairs s →
        uniqueCommunityPairs
          (Routes.create_community s actor university program description).2)) := by
  constructor
  · intro ex hex
    simp [Routes.create_community, hex]
  · intro hnone
    have hstep : Routes.create_community s actor university program description =
        (CreateCommunityOutcome.created s.nextId,
         { communities := s.communities ++
             [{ id := s.nextId, name := university ++ " - " ++ program,
                university := university, program := program,
                description := description, created_by_id := actor }],
           members := s.members ++ [(actor, s.nextId)],
           nextId := s.nextId + 1 }) := by
      simp [Routes.create_community, hnone]
    refine ⟨hstep, ?_, ?_⟩
    · rw [hstep]; simp
    · intro huni
      rw [hstep]
      intro u p
      have hall : ∀ c ∈ s.communities,
          ¬ (c.university == university && c.program == program) = true :=
        List.find?_eq_none.mp hnone
      simp only [communityPairCount, List.filter_append, List.length_append]
      by_cases hc : ((university == u) && (program == p)) = true
      · have hu : university = u := eq_of_beq ((Bool.and_eq_true _ _).mp hc).1
        have hpp : program = p := eq_of_beq ((Bool.and_eq_true _ _).mp hc).2
        subst hu
        subst hpp
        have hnil : s.communities.filter
            (fun c => c.university == university && c.program == program) = [] := by
          rw [List.filter_eq_nil_iff]
          exact hall
        simp [hnil, List.filter_cons, hc]
      · have hc2 : ((university == u) && (program == p)) = false := by
          cases hx : ((university == u) && (program == p))
          · rfl
          · exact absurd hx hc
        have := huni u p
        simp only [communityPairCount] at this
        simp [List.filter_cons, hc2]
        omega

/-- C7 witness: user 3 creates the (MIT, CS) community in an empty store
and becomes a member; a second creation attempt by user 4 for the same pair
is then rejected as a duplicate with the store unchanged. -/
theorem c7_create_community_unique_pair_witness :
    (findCommunity (CommunityStore.mk [] [] 0) "MIT" "CS" = none) ∧
    Routes.create_community (CommunityStore.mk [] [] 0) 3 "MIT" "CS" "d" =
      (CreateCommunityOutcome.created 0,
       { communities :=
           [{ id := 0, name := "MIT - CS", university := "MIT",
              program := "CS", description := "d", created_by_id := 3 }],
         members := [(3, 0)], nextId := 1 }) ∧
    (3, 0) ∈
      (Routes.create_community (CommunityStore.mk [] [] 0) 3 "MIT" "CS" "d").2.members ∧
    Routes.create_community
        { communities :=
            [{ id := 0, name := "MIT - CS", university := "MIT",
               program := "CS", description := "d", created_by_id := 3 }],
          members := [(3, 0)], nextId := 1 } 4 "MIT" "CS" "x" =
      (CreateCommunityOutcome.duplicate 0,
       { communities :=
           [{ id := 0, name := "MIT - CS", university := "MIT",
              program := "CS", description := "d", created_by_id := 3 }],
         members := [(3, 0)], nextId := 1 }) :=
  ⟨by decide,
   ((c7_create_community_unique_pair (CommunityStore.mk [] [] 0) 3
      "MIT" "CS" "d").2 (by decide)).1,
   ((c7_create_community_unique_pair (CommunityStore.mk [] [] 0) 3
      "MIT" "CS" "d").2 (by decide)).2.1,
   (c7_create_community_unique_pair
      { communities :=
          [{ id := 0, name := "MIT - CS", university := "MIT",
             program := "CS", description := "d", created_by_id := 3 }],
        members := [(3, 0)], nextId := 1 } 4 "MIT" "CS" "x").1
     { id := 0, name := "MIT - CS", university := "MIT",
       program := "CS", description := "d", created_by_id := 3 }
     (by decide)⟩

/-- C8: only the author of a comment may delete it — any other actor gets
Unauthorized with the store unchanged — and a successful deletion removes
the comment together with its entire reply subtree, so a subsequent lookup
of the deleted root or of any comment in its subtree returns none
(NotFound). The Nodup hypothesis reflects the primary key on
`comment.id`. -/
theorem c8_delete_comment_cascade (s : CommentStore) (actor cid : Nat)
    (c : Comment) (hfind : getComment s cid = some c)
    (hnodup : (s.comments.map Comment.id).Nodup) :
    (c.author_id ≠ actor →
      Routes.delete_comment s actor cid =
        (DeleteCommentOutcome.unauthorized, s)) ∧
    (c.author_id = actor →
      Routes.delete_comment s actor cid =
        (DeleteCommentOutcome.deleted,
         { comments := s.comments.filter (fun d => !(inSubtree s cid d.id)) }) ∧
      (∀ d, d ∈ s.comments → inSubtree s cid d.id = true →
        getComment (Routes.delete_comment s actor cid).2 d.id = none) ∧
      getComment (Routes.delete_comment s actor cid).2 cid = none) := by
  constructor
  · intro hne
    simp [Routes.delete_comment, hfind, bne_iff_ne, hne]
  · intro heq
    have hstep : Routes.delete_comment s actor cid =
        (DeleteCommentOutcome.deleted,
         { comments := s.comments.filter (fun d => !(inSubtree s cid d.id)) }) := by
      simp [Routes.delete_comment, hfind, heq]
    have hdesc : ∀ d, d ∈ s.comments → inSubtree s cid d.id = true →
        getComment (Routes.delete_comment s actor cid).2 d.id = none := by
      intro d hd hsub
      rw [hstep]
      rw [getComment, List.find?_eq_none]
      intro x hx
      have hx2 := List.mem_filter.mp hx
      have hxmem : x ∈ s.comments := hx2.1
      have hxsub : inSubtree s cid x.id = false := by
        have := hx2.2
        simpa using this
      intro hbeq
      have hxid : x.id = d.id := by simpa using hbeq
      have hxd : x = d := by
        have hinj := List.inj_on_of_nodup_map hnodup
        exact hinj hxmem hd hxid
      rw [hxd] at hxsub
      rw [hsub] at hxsub
      exact Bool.true_eq_false.mp hxsub
    have hcmem : c ∈ s.comments := List.mem_of_find?_eq_some hfind
    have hcid : c.id = cid := by
      have := List.find?_some hfind
      simpa using this
    have hroot : inSubtree s cid c.id = true := by
      rw [hcid]
      simp [inSubtree, chainUp]
    refine ⟨hstep, hdesc, ?_⟩
    have := hdesc c hcmem hroot
    rwa [hcid] at this

/-- C8 witness: the spec scenario — root comment 1 (author 5) with reply 2;
author 5 deletes comment 1, after which lookups of both comment 1 and its
reply 2 return none. -/
theorem c8_delete_comment_cascade_witness :
    (getComment
      (CommentStore.mk
        [{ id := 1, author_id := 5, poll_id := 1, parent_id := none },
         { id := 2, author_id := 6, poll_id := 1, parent_id := some 1 }]) 1 =
      some { id := 1, author_id := 5, poll_id := 1, parent_id := none }) ∧
    getComment
      (Routes.delete_comment
        (CommentStore.mk
          [{ id := 1, author_id := 5, poll_id := 1, parent_id := none },
           { id := 2, author_id := 6, poll_id := 1, parent_id := some 1 }]) 5 1).2
      2 = none ∧
    getComment
      (Routes.delete_comment
        (CommentStore.mk
          [{ id := 1, author_id := 5, poll_id := 1, parent_id := none },
           { id := 2, author_id := 6, poll_id := 1, parent_id := some 1 }]) 5 1).2
      1 = none :=
  ⟨by decide,
   ((c8_delete_comment_cascade
      (CommentStore.mk
        [{ id := 1, author_id := 5, poll_id := 1, parent_id := none },
         { id := 2, author_id := 6, poll_id := 1, parent_id := some 1 }]) 5 1
      { id := 1, author_id := 5, poll_id := 1, parent_id := none }
      (by decide) (by decide)).2 rfl).2.1
     { id := 2, author_id := 6, poll_id := 1, parent_id := some 1 }
     (by decide) (by decide),
   ((c8_delete_comment_cascade
      (CommentStore.mk
        [{ id := 1, author_id := 5, poll_id := 1, parent_id := none },
         { id := 2, author_id := 6, poll_id := 1, parent_id := some 1 }]) 5 1
      { id := 1, author_id := 5, poll_id := 1, parent_id := none }
      (by decide) (by decide)).2 rfl).2.2⟩

/-- C9 counterexample: the claim says every successfully created poll gets
the synthetic viewing-only option, but the form-based creation route
succeeds while creating no option rows at all: the committed option list is
empty. -/
theorem c9_synthetic_option_counterexample :
    Routes.create_poll 0 1
      { title := "t", description := "d", poll_type := "general",
        end_date := none } =
    Except.ok
      ({ title := "t", description := "d", poll_type := "general",
         end_date := none, user_id := 1 }, []) := by decide

/-- C9 (amended): no successfully created poll carries the synthetic
viewing-only option. The programmatic API — the only path whose code would
append exactly one synthetic option after the caller-supplied options —
never successfully creates a poll, because every call past end-date
validation fails on the undeclared course keyword passed to the Poll
constructor before any option row is inserted; and the form-based route,
the only path that does create polls, commits no option rows at all, hence
no synthetic option. -/
theorem c9_synthetic_option_amended :
    (∀ (now : Nat) (req : ApiPollRequest) (cp : CreatedPoll),
      Api.create_poll now req ≠ Except.ok cp) ∧
    (∀ (now user : Nat) (freq : FormPollRequest) (pr : FormPoll × List String),
      Routes.create_poll now user freq = Except.ok pr → pr.2 = []) := by
  refine ⟨?_, ?_⟩
  · intro now req cp
    exact api_create_poll_never_ok now req cp
  · intro now user freq pr h
    simp only [Routes.create_poll] at h
    split at h
    · exact absurd h (by simp)
    · split at h
      · have := Except.ok.inj h
        rw [← this]
      · exact absurd h (by simp)

/-- C9 witness: a concrete valid API request never yields the success
response that would carry the synthetic option, and a concrete successful
form creation commits no options. -/
theorem c9_synthetic_option_witness :
    (Api.create_poll 0
      { title := "t", poll_type := "general", description := "d",
        end_date := none, course := none, options := ["a", "b"] } ≠
      Except.ok
        { end_date := days 3, default_end_date := days 3,
          max_end_date := days 10, min_end_date := minutes 5,
          optionTexts := ["a", "b", DEFAULT_OPTION] }) ∧
    (Routes.create_poll 0 1
      { title := "t", description := "d", poll_type := "general",
        end_date := none } =
      Except.ok
        ({ title := "t", description := "d", poll_type := "general",
           end_date := none, user_id := 1 }, [])) ∧
    (({ title := "t", description := "d", poll_type := "general",
        end_date := none, user_id := 1 : FormPoll },
      ([] : List String)).2 = []) :=
  ⟨c9_synthetic_option_amended.1 0
     { title := "t", poll_type := "general", description := "d",
       end_date := none, course := none, options := ["a", "b"] }
     { end_date := days 3, default_end_date := days 3,
       max_end_date := days 10, min_end_date := minutes 5,
       optionTexts := ["a", "b", DEFAULT_OPTION] },
   by decide,
   c9_synthetic_option_amended.2 0 1
     { title := "t", description := "d", poll_type := "general",
       end_date := none }
     ({ title := "t", description := "d", poll_type := "general",
        end_date := none, user_id := 1 }, []) (by decide)⟩

/-- C10: every Vote row inserted through the programmatic vote endpoint is
created with no user attached, regardless of the caller's authentication
state, and the insert is unconditional for a valid option — it happens for
every existing votes table, so no per-user duplicate check precedes it. -/
theorem c10_api_vote_userless_unconditional (s : VoteStore) (pid oid : Nat)
    (curUser : Option Nat) (opt : PollOption)
    (hopt : findPollOption s oid = some opt) (hbelongs : opt.poll_id = pid) :
    Api.vote_poll s pid (some oid) curUser =
      (ApiVoteOutcome.recorded,
       { s with votes := s.votes ++ [{ user_id := none, option_id := oid }] }) := by
  simp [Api.vote_poll, hopt, hbelongs]

/-- C10 witness: an authenticated caller (user 9) votes through the API on
option 1 of poll 2 in a state that ALREADY holds an identical user-less
vote; a second user-less row is appended anyway. -/
theorem c10_api_vote_userless_unconditional_witness :
    (findPollOption
      { polls := [{ id := 2, end_date := none }],
        options := [{ id := 1, poll_id := 2 }],
        votes := [{ user_id := none, option_id := 1 }] } 1 =
      some { id := 1, poll_id := 2 }) ∧
    Api.vote_poll
      { polls := [{ id := 2, end_date := none }],
        options := [{ id := 1, poll_id := 2 }],
        votes := [{ user_id := none, option_id := 1 }] } 2 (some 1) (some 9) =
      (ApiVoteOutcome.recorded,
       { polls := [{ id := 2, end_date := none }],
         options := [{ id := 1, poll_id := 2 }],
         votes := [{ user_id := none, option_id := 1 },
                   { user_id := none, option_id := 1 }] }) :=
  ⟨by decide,
   c10_api_vote_userless_unconditional
     { polls := [{ id := 2, end_date := none }],
       options := [{ id := 1, poll_id := 2 }],
       votes := [{ user_id := none, option_id := 1 }] } 2 1 (some 9)
     { id := 1, poll_id := 2 } (by decide) rfl⟩

end GradHub
